import Mathlib

/-!
A verification development for the resume-match pipeline (sources:
`lib/resumeParser.ts`, `lib/groq.ts`, `lib/openai.ts`, the analyze and
parse-resume API routes).  JavaScript strings are modelled as `List Char`,
`JSON.parse` as a fuel-indexed recursive-descent decoder producing a `Json`
value (numbers as exact rationals), Zod schema checks as explicit validators,
and each `catch` block as a function from thrown-error values to structured
stage errors.  Process-environment credentials and the provider call are
explicit parameters, so "before any network call" facts appear as
independence from the provider-response parameter.
-/

set_option maxHeartbeats 1000000

/-- A JavaScript string, modelled as its list of characters. -/
abbrev Str := List Char

/-- The backtick character, written via an escape. -/
def btick : Char := '\x60'

/-- Whitespace recognised both by `String.prototype.trim` (on the payloads in
scope here) and the JSON grammar. -/
def isWsChar (c : Char) : Bool := c = ' ' || c = '\n' || c = '\t' || c = '\r'

/-- Leading-whitespace removal used by the JSON decoder. -/
def skipWs (s : Str) : Str := s.dropWhile isWsChar

/-- Model of `String.prototype.trim`: drop whitespace at both ends. -/
def jsTrim (s : Str) : Str := ((s.dropWhile isWsChar).reverse.dropWhile isWsChar).reverse

/-- Model of `String.prototype.toLowerCase` on the ASCII messages in scope. -/
def jsLower (s : Str) : Str := s.map Char.toLower

/-- Model of `String.prototype.includes`: substring containment. -/
def strIncludes (hay needle : Str) : Bool :=
  match hay with
  | [] => needle.isEmpty
  | c :: t => needle.isPrefixOf (c :: t) || strIncludes t needle

/-- A decoded JSON value.  Numbers are exact rationals (adequate for the
integer-and-decimal payloads the schemas constrain). -/
inductive Json where
  | null
  | bool (b : Bool)
  | num (q : Rat)
  | str (s : Str)
  | arr (elems : List Json)
  | obj (fields : List (Str × Json))

/-- Last-binding-wins field lookup, as `JSON.parse` gives later duplicate
object keys precedence. -/
def jlookup (fields : List (Str × Json)) (key : Str) : Option Json :=
  match fields with
  | [] => none
  | (k, v) :: rest =>
    match jlookup rest key with
    | some v' => some v'
    | none => if k = key then some v else none

/-- Hexadecimal digit value, for `\uXXXX` escapes. -/
def hexVal (c : Char) : Option Nat :=
  if '0' ≤ c ∧ c ≤ '9' then some (c.toNat - 48)
  else if 'a' ≤ c ∧ c ≤ 'f' then some (c.toNat - 87)
  else if 'A' ≤ c ∧ c ≤ 'F' then some (c.toNat - 55)
  else none

/-- Consume an expected literal, or fail. -/
def expectLit (lit s : Str) : Option Str :=
  if lit.isPrefixOf s then some (s.drop lit.length) else none

/-- Longest digit run at the head of the input, and the rest. -/
def takeDigits (s : Str) : Str × Str := (s.takeWhile Char.isDigit, s.dropWhile Char.isDigit)

/-- Decimal digits to a natural number accumulator. -/
def digitsToNat : Str → Nat → Nat
  | [], acc => acc
  | c :: cs, acc => digitsToNat cs (acc * 10 + (c.toNat - 48))

/-- Exponent suffix of a JSON number (input begins after the `e`/`E`). -/
def parseExpPart (s : Str) : Option (Int × Str) :=
  match s with
  | [] => none
  | c :: cs =>
    if c = '+' then
      let (es, r) := takeDigits cs
      if es.isEmpty then none else some (Int.ofNat (digitsToNat es 0), r)
    else if c = '-' then
      let (es, r) := takeDigits cs
      if es.isEmpty then none else some (-(Int.ofNat (digitsToNat es 0)), r)
    else
      let (es, r) := takeDigits (c :: cs)
      if es.isEmpty then none else some (Int.ofNat (digitsToNat es 0), r)

/-- A JSON number literal (strict grammar: optional minus, no leading zeros,
optional fraction and exponent), evaluated exactly as a rational. -/
def parseNumber (s : Str) : Option (Json × Str) :=
  let (neg, s1) : Bool × Str :=
    match s with
    | c :: cs => if c = '-' then (true, cs) else (false, c :: cs)
    | [] => (false, [])
  let (ds, s2) := takeDigits s1
  if ds.isEmpty then none
  else if 1 < ds.length ∧ ds.headD 'x' = '0' then none
  else
    let fracRes : Option (Str × Str) :=
      match s2 with
      | c :: cs =>
        if c = '.' then
          let (fs, r) := takeDigits cs
          if fs.isEmpty then none else some (fs, r)
        else some ([], c :: cs)
      | [] => some ([], [])
    match fracRes with
    | none => none
    | some (fds, s3) =>
      let expRes : Option (Int × Str) :=
        match s3 with
        | c :: cs => if c = 'e' || c = 'E' then parseExpPart cs else some (0, c :: cs)
        | [] => some (0, [])
      match expRes with
      | none => none
      | some (ex, s4) =>
        let mant : Nat := digitsToNat (ds ++ fds) 0
        let signed : Int := if neg then -(Int.ofNat mant) else Int.ofNat mant
        let e : Int := ex - Int.ofNat fds.length
        let q : Rat := if 0 ≤ e then mkRat (signed * (10 ^ e.toNat : Nat)) 1 else mkRat signed (10 ^ (-e).toNat)
        some (.num q, s4)

/-- Work items of the decoder: a value, the items of an array, the members of
an object, or the body of a string literal (after the opening quote). -/
inductive PTask where
  | value (s : Str)
  | arrItems (s : Str) (acc : List Json)
  | objItems (s : Str) (acc : List (Str × Json))
  | strBody (s : Str) (acc : Str)

/-- Results of the decoder, one shape per task kind. -/
inductive PRes where
  | value (v : Json) (rest : Str)
  | arr (vs : List Json) (rest : Str)
  | obj (fs : List (Str × Json)) (rest : Str)
  | str (cs : Str) (rest : Str)

/-- The fuel-indexed core of the JSON decoder (structural on the fuel, so the
kernel can evaluate it on concrete payloads). -/
def parseF : Nat → PTask → Option PRes
  | 0, _ => none
  | Nat.succ fuel, t =>
    match t with
    | .value s =>
      match skipWs s with
      | [] => none
      | c :: cs =>
        if c = 'n' then
          match expectLit "ull".data cs with
          | some rest => some (.value .null rest)
          | none => none
        else if c = 't' then
          match expectLit "rue".data cs with
          | some rest => some (.value (.bool true) rest)
          | none => none
        else if c = 'f' then
          match expectLit "alse".data cs with
          | some rest => some (.value (.bool false) rest)
          | none => none
        else if c = '"' then
          match parseF fuel (.strBody cs []) with
          | some (.str out rest) => some (.value (.str out) rest)
          | _ => none
        else if c = '[' then
          match skipWs cs with
          | ']' :: rest => some (.value (.arr []) rest)
          | _ =>
            match parseF fuel (.arrItems cs []) with
            | some (.arr vs rest) => some (.value (.arr vs) rest)
            | _ => none
        else if c = '\x7b' then
          match skipWs cs with
          | '\x7d' :: rest => some (.value (.obj []) rest)
          | _ =>
            match parseF fuel (.objItems cs []) with
            | some (.obj fs rest) => some (.value (.obj fs) rest)
            | _ => none
        else if c = '-' || c.isDigit then
          match parseNumber (c :: cs) with
          | some (v, rest) => some (.value v rest)
          | none => none
        else none
    | .arrItems s acc =>
      match parseF fuel (.value s) with
      | some (.value v rest) =>
        match skipWs rest with
        | ',' :: rest2 => parseF fuel (.arrItems rest2 (acc ++ [v]))
        | ']' :: rest2 => some (.arr (acc ++ [v]) rest2)
        | _ => none
      | _ => none
    | .objItems s acc =>
      match skipWs s with
      | '"' :: cs =>
        match parseF fuel (.strBody cs []) with
        | some (.str key rest) =>
          match skipWs rest with
          | ':' :: rest2 =>
            match parseF fuel (.value rest2) with
            | some (.value v rest3) =>
              match skipWs rest3 with
              | ',' :: rest4 => parseF fuel (.objItems rest4 (acc ++ [(key, v)]))
              | '\x7d' :: rest4 => some (.obj (acc ++ [(key, v)]) rest4)
              | _ => none
            | _ => none
          | _ => none
        | _ => none
      | _ => none
    | .strBody s acc =>
      match s with
      | [] => none
      | c :: cs =>
        if c = '"' then some (.str acc cs)
        else if c = '\\' then
          match cs with
          | [] => none
          | e :: cs2 =>
            if e = '"' then parseF fuel (.strBody cs2 (acc ++ ['"']))
            else if e = '\\' then parseF fuel (.strBody cs2 (acc ++ ['\\']))
            else if e = '/' then parseF fuel (.strBody cs2 (acc ++ ['/']))
            else if e = 'b' then parseF fuel (.strBody cs2 (acc ++ ['\x08']))
            else if e = 'f' then parseF fuel (.strBody cs2 (acc ++ ['\x0c']))
            else if e = 'n' then parseF fuel (.strBody cs2 (acc ++ ['\n']))
            else if e = 'r' then parseF fuel (.strBody cs2 (acc ++ ['\x0d']))
            else if e = 't' then parseF fuel (.strBody cs2 (acc ++ ['\t']))
            else if e = 'u' then
              match cs2 with
              | h1 :: h2 :: h3 :: h4 :: cs3 =>
                match hexVal h1, hexVal h2, hexVal h3, hexVal h4 with
                | some a, some b, some c3, some d =>
                  parseF fuel (.strBody cs3 (acc ++ [Char.ofNat (((a * 16 + b) * 16 + c3) * 16 + d)]))
                | _, _, _, _ => none
              | _ => none
            else none
        else if c.toNat < 32 then none
        else parseF fuel (.strBody cs (acc ++ [c]))

/-- Model of `JSON.parse`: decode one value, allow surrounding whitespace,
reject trailing garbage. -/
def jsonParse (s : Str) : Option Json :=
  match parseF (2 * s.length + 4) (.value s) with
  | some (.value v rest) => if (skipWs rest).isEmpty then some v else none
  | _ => none

/-- The structured resume record (`ParsedResumeSchema` in
`lib/resumeParser.ts`): three string arrays and a contact string. -/
structure ParsedResume where
  skills : List Str
  experience : List Str
  education : List Str
  contact : Str
deriving DecidableEq

/-- The match-analysis record (`AnalysisResultSchema` in `lib/groq.ts` and
`lib/openai.ts`): a 0-100 percentage and three string arrays. -/
structure AnalysisResult where
  matchPercentage : Rat
  matchedSkills : List Str
  missingSkills : List Str
  suggestions : List Str
deriving DecidableEq

/-- The error taxonomy of the specification, used to tag each `throw` site of
the source. -/
inductive ErrorKind where
  | configuration
  | noContent
  | malformed
  | schema
  | rateLimited
  | authentication
  | modelUnavailable
  | upstream
  | unknown
deriving DecidableEq

/-- A structured stage failure: taxonomy kind, the provider status when one
was preserved, and the surfaced message. -/
structure StageError where
  kind : ErrorKind
  status : Option Nat
  message : Str
deriving DecidableEq

/-- A value reaching a `catch` block: either a Zod validation error, or a
JavaScript error-like object carrying the kind it was thrown with, an
optional HTTP status, whether it is an `Error` instance, and its message. -/
inductive Caught where
  | zod (msg : Str)
  | js (kind : ErrorKind) (status : Option Nat) (isError : Bool) (msg : Str)

/-- Outcome of the provider call inside the `try` block: a completion whose
`choices[0]?.message?.content` may be missing, or a thrown provider error. -/
inductive NetOutcome where
  | content (c : Option Str)
  | threw (status : Option Nat) (isError : Bool) (msg : Str)

/-- Zod `z.array(z.string())` on a list of decoded values. -/
def asStrList : List Json → Option (List Str)
  | [] => some []
  | .str s :: rest => (asStrList rest).map (s :: ·)
  | _ => none

/-- Zod `z.array(z.string())` on a decoded value. -/
def asStringArray : Json → Option (List Str)
  | .arr xs => asStrList xs
  | _ => none

/-- Zod `z.string()` on a decoded value. -/
def asString : Json → Option Str
  | .str s => some s
  | _ => none

/-- Placeholder detail texts standing in for Zod's serialized issue lists
(their exact wording is library-internal and not depended on). -/
def zodMissingMsg : Str := "required field missing".data

def zodWrongTypeMsg : Str := "field has wrong type".data

def zodNotNumberMsg : Str := "matchPercentage is not a number".data

def zodTooSmallMsg : Str := "matchPercentage below minimum 0".data

def zodTooBigMsg : Str := "matchPercentage above maximum 100".data

def zodNotObjectMsg : Str := "expected object".data

/-- Field part of `ParsedResumeSchema.parse`: the four required fields of a
decoded object, extra keys ignored. -/
def validateParsedResumeFields (fs : List (Str × Json)) : Except Str ParsedResume :=
  match jlookup fs "skills".data, jlookup fs "experience".data,
        jlookup fs "education".data, jlookup fs "contact".data with
  | some js, some je, some jed, some jc =>
    match asStringArray js, asStringArray je, asStringArray jed, asString jc with
    | some s, some e, some ed, some c => .ok ⟨s, e, ed, c⟩
    | _, _, _, _ => .error zodWrongTypeMsg
  | _, _, _, _ => .error zodMissingMsg

/-- `ParsedResumeSchema.parse`: an object with the four required fields;
any missing field or wrong-shaped field is a failure. -/
def validateParsedResume (j : Json) : Except Str ParsedResume :=
  match j with
  | .obj fs => validateParsedResumeFields fs
  | _ => .error zodNotObjectMsg

/-- Range-and-shape part of `AnalysisResultSchema.parse`, applied once the
four required fields are present. -/
def validateAnalysisPresent (jm j1 j2 j3 : Json) : Except Str AnalysisResult :=
  match jm with
  | .num x =>
    if x < 0 then .error zodTooSmallMsg
    else if 100 < x then .error zodTooBigMsg
    else
      match asStringArray j1, asStringArray j2, asStringArray j3 with
      | some a, some b, some c => .ok ⟨x, a, b, c⟩
      | _, _, _ => .error zodWrongTypeMsg
  | _ => .error zodNotNumberMsg

/-- Field part of `AnalysisResultSchema.parse`. -/
def validateAnalysisFields (fs : List (Str × Json)) : Except Str AnalysisResult :=
  match jlookup fs "matchPercentage".data, jlookup fs "matchedSkills".data,
        jlookup fs "missingSkills".data, jlookup fs "suggestions".data with
  | some jm, some j1, some j2, some j3 => validateAnalysisPresent jm j1 j2 j3
  | _, _, _, _ => .error zodMissingMsg

/-- `AnalysisResultSchema.parse`: four required fields with
`matchPercentage` a number within `[0, 100]`. -/
def validateAnalysisResult (j : Json) : Except Str AnalysisResult :=
  match j with
  | .obj fs => validateAnalysisFields fs
  | _ => .error zodNotObjectMsg

/-- JavaScript `x || y` for a string `x`: the empty string is falsy. -/
def jsOrStr (a d : Str) : Str := if a.isEmpty then d else a

/-- The post-validation defaulting of `parseResumeFromText` (lines 106-111 of
`lib/resumeParser.ts`).  `validated.skills || []` is the identity because a
schema-validated array is always truthy in JavaScript, even when empty; only
`validated.contact || 'Not provided'` can substitute, on an empty string. -/
def defaultFill (v : ParsedResume) : ParsedResume :=
  { skills := v.skills
    experience := v.experience
    education := v.education
    contact := jsOrStr v.contact "Not provided".data }

/-- Truthiness of the credential string read from the environment:
`!apiKey` holds when the variable is absent or empty. -/
def keyFalsy : Option Str → Bool
  | none => true
  | some s => s.isEmpty

/-- Message of the credential guard shared by `lib/resumeParser.ts` and
`lib/groq.ts` (thrown before the `try` block, hence before any call). -/
def groqKeyMissingMsg : Str :=
  "GROQ_API_KEY is not configured. Get a free API key at https://console.groq.com/keys".data

/-- Message prefix wrapping Zod errors in `parseResumeFromText`. -/
def parserZodPrefix : Str := "Invalid resume structure from parser: ".data

/-- Message prefix wrapping Zod errors in both `analyzeResume` variants. -/
def analyzeZodPrefix : Str := "Invalid response structure from AI: ".data

/-- Decode-failure message (the engine-specific detail after the colon in the
source template is elided, as it is produced by the JavaScript runtime). -/
def jsonParseFailMsg : Str := "Failed to parse JSON response".data

def parserNoContentMsg : Str := "No response content from resume parser".data

def groqNoContentMsg : Str := "No response content from Groq".data

def parserRateMsg : Str :=
  "Resume parser API rate limit exceeded. Please wait a moment and try again.".data

def parserAuthMsg : Str :=
  "Resume parser API authentication failed. Please check that your GROQ_API_KEY is valid.".data

def groqRateMsgA : Str :=
  ("Groq API rate limit exceeded. Free tier allows 14,400 requests per day. " ++
   "Please wait a moment and try again, or check your usage at https://console.groq.com").data

def groqRateMsgB : Str :=
  ("Groq API rate limit exceeded. Free tier allows 14,400 requests per day. " ++
   "Please wait a moment and try again.").data

def groqAuthMsg : Str :=
  ("Groq API authentication failed. Please check that your API key is valid. " ++
   "Get a free API key at https://console.groq.com/keys").data

def parserUnknownMsg : Str := "Unknown error occurred during resume parsing".data

def analyzeUnknownMsg : Str := "Unknown error occurred during AI analysis".data

def openaiQuotaMsg : Str :=
  ("OpenAI API quota exceeded. Please check your OpenAI account billing and usage limits. " ++
   "Visit https://platform.openai.com/account/billing to add credits or upgrade your plan.").data

def openaiRate429Msg : Str :=
  "OpenAI API rate limit exceeded. Please wait a moment and try again, or upgrade your plan for higher rate limits.".data

def openaiAuthMsg : Str :=
  "OpenAI API authentication failed. Please check that your API key is valid and correctly configured in your .env.local file.".data

def openaiRate2Msg : Str :=
  "OpenAI API rate limit exceeded. Please wait a moment and try again.".data

/-- Rate-limit message test shared by the two Groq-backed catch blocks:
`'429'`, `'quota'`, `'rate limit'` or `'too many requests'`. -/
def groqRatePattern (m : Str) : Bool :=
  strIncludes m "429".data || strIncludes (jsLower m) "quota".data ||
  strIncludes (jsLower m) "rate limit".data || strIncludes (jsLower m) "too many requests".data

/-- Credential message test shared by the two Groq-backed catch blocks:
`'401'`, `'api key'`, `'authentication'` or `'unauthorized'`. -/
def groqAuthPattern (m : Str) : Bool :=
  strIncludes m "401".data || strIncludes (jsLower m) "api key".data ||
  strIncludes (jsLower m) "authentication".data || strIncludes (jsLower m) "unauthorized".data

/-- Quota wording test inside the OpenAI 429 branch. -/
def openaiQuotaTextPattern (m : Str) : Bool :=
  strIncludes (jsLower m) "quota".data || strIncludes (jsLower m) "billing".data ||
  strIncludes (jsLower m) "exceeded".data

/-- Quota wording test of the OpenAI statusless fallback branch. -/
def openaiFallbackQuotaPattern (m : Str) : Bool :=
  strIncludes m "429".data || strIncludes (jsLower m) "quota".data ||
  strIncludes (jsLower m) "billing".data ||
  strIncludes (jsLower m) "exceeded your current quota".data

/-- The `catch` block of `parseResumeFromText` (`lib/resumeParser.ts` lines
112-153): Zod errors become schema failures; any error whose message matches
the rate or credential patterns is replaced by a canned message; other
`Error` instances are rethrown unchanged; anything else becomes the unknown
failure. -/
def parseResumeCatch : Caught → StageError
  | .zod m => ⟨.schema, none, parserZodPrefix ++ m⟩
  | .js k st isErr m =>
    if groqRatePattern m then ⟨.rateLimited, none, parserRateMsg⟩
    else if groqAuthPattern m then ⟨.authentication, none, parserAuthMsg⟩
    else if isErr then ⟨k, st, m⟩
    else ⟨.unknown, none, parserUnknownMsg⟩

/-- The `catch` block of the Groq `analyzeResume` (`lib/groq.ts` lines
93-151), including its redundant second rate-limit test on the
`instanceof Error` path. -/
def groqAnalyzeCatch : Caught → StageError
  | .zod m => ⟨.schema, none, analyzeZodPrefix ++ m⟩
  | .js k st isErr m =>
    if groqRatePattern m then ⟨.rateLimited, none, groqRateMsgA⟩
    else if groqAuthPattern m then ⟨.authentication, none, groqAuthMsg⟩
    else if isErr then
      if groqRatePattern m then ⟨.rateLimited, none, groqRateMsgB⟩ else ⟨k, st, m⟩
    else ⟨.unknown, none, analyzeUnknownMsg⟩

/-- Decimal rendering of a status code, for the OpenAI diagnostic template. -/
def natToStr (n : Nat) : Str := (Nat.repr n).data

/-- The `catch` block of the OpenAI `analyzeResume` (`lib/openai.ts` lines
93-160): a structured `status` is inspected first (429, 401, then a
diagnostic preserving status and message); without a status, message text is
the fallback. -/
def openaiAnalyzeCatch : Caught → StageError
  | .zod m => ⟨.schema, none, analyzeZodPrefix ++ m⟩
  | .js k st isErr m =>
    match st with
    | some s =>
      if s = 429 then
        if openaiQuotaTextPattern m then ⟨.rateLimited, none, openaiQuotaMsg⟩
        else ⟨.rateLimited, none, openaiRate429Msg⟩
      else if s = 401 then ⟨.authentication, none, openaiAuthMsg⟩
      else
        ⟨.upstream, some s,
          "OpenAI API error (".data ++ natToStr s ++ "): ".data ++
            (if m.isEmpty then "Unknown error".data else m)⟩
    | none =>
      if isErr then
        if openaiFallbackQuotaPattern m then ⟨.rateLimited, none, openaiQuotaMsg⟩
        else if strIncludes (jsLower m) "rate limit".data then ⟨.rateLimited, none, openaiRate2Msg⟩
        else ⟨k, st, m⟩
      else ⟨.unknown, none, analyzeUnknownMsg⟩

/-- `parseResumeFromText` (`lib/resumeParser.ts` lines 38-154).  The
credential is read from the environment (`apiKey`), the prompt is built from
`resumeText`, and `net` is the outcome of the one provider call; the guard on
the credential runs before the `try` block, so a falsy key fails identically
for every `net`. -/
def parseResumeFromText (apiKey : Option Str) (resumeText : Str) (net : NetOutcome) :
    Except StageError ParsedResume :=
  if keyFalsy apiKey then .error ⟨.configuration, none, groqKeyMissingMsg⟩
  else
    match net with
    | .threw st isErr m => .error (parseResumeCatch (.js .upstream st isErr m))
    | .content none => .error (parseResumeCatch (.js .noContent none true parserNoContentMsg))
    | .content (some content) =>
      match jsonParse content with
      | none => .error (parseResumeCatch (.js .malformed none true jsonParseFailMsg))
      | some j =>
        match validateParsedResume j with
        | .error zm => .error (parseResumeCatch (.zod zm))
        | .ok v => .ok (defaultFill v)

/-- The Groq `analyzeResume` (`lib/groq.ts` lines 24-152), same shape as
`parseResumeFromText` but validating against the analysis schema and
returning the validated record without any defaulting. -/
def analyzeResume (apiKey : Option Str) (resumeText jobDescription : Str) (net : NetOutcome) :
    Except StageError AnalysisResult :=
  if keyFalsy apiKey then .error ⟨.configuration, none, groqKeyMissingMsg⟩
  else
    match net with
    | .threw st isErr m => .error (groqAnalyzeCatch (.js .upstream st isErr m))
    | .content none => .error (groqAnalyzeCatch (.js .noContent none true groqNoContentMsg))
    | .content (some content) =>
      match jsonParse content with
      | none => .error (groqAnalyzeCatch (.js .malformed none true jsonParseFailMsg))
      | some j =>
        match validateAnalysisResult j with
        | .error zm => .error (groqAnalyzeCatch (.zod zm))
        | .ok r => .ok r

/-- Removal of a leading fence marker, modelling
`replace(/^<marker>\n?/, '')` in the branch where `startsWith` held. -/
def stripStartFence (p s : Str) : Str :=
  if p.isPrefixOf s then
    match s.drop p.length with
    | c :: r => if c = '\n' then r else c :: r
    | [] => []
  else s

/-- Removal of a trailing fence, modelling `replace(/\n?\x60\x60\x60$/, '')`:
three final backticks are removed along with at most one newline before
them. -/
def stripEndFence (s : Str) : Str :=
  match s.reverse with
  | c1 :: c2 :: c3 :: r =>
    if c1 = btick ∧ c2 = btick ∧ c3 = btick then
      match r with
      | c4 :: r2 => if c4 = '\n' then r2.reverse else r.reverse
      | [] => []
    else s
  | _ => s

/-- The fence-stripping step of the Gemini `analyzeResume` variant
(`lib/openai.ts` Gemini section, lines 250-262): trim, then remove a leading
```` ```json ```` or ```` ``` ```` fence and the matching trailing fence. -/
def stripFences (content : Str) : Str :=
  if "\x60\x60\x60json".data.isPrefixOf (jsTrim content) then
    stripEndFence (stripStartFence "\x60\x60\x60json".data (jsTrim content))
  else if "\x60\x60\x60".data.isPrefixOf (jsTrim content) then
    stripEndFence (stripStartFence "\x60\x60\x60".data (jsTrim content))
  else jsTrim content

/-- The decode step of the Gemini variant: fence-stripping, then
`JSON.parse`. -/
def geminiDecode (content : Str) : Option Json := jsonParse (stripFences content)

/-- A payload wrapped in a ```` ```json ```` fence, as in the spec's
idempotence property. -/
def wrapJson (t : Str) : Str := "\x60\x60\x60json\n".data ++ t ++ "\n\x60\x60\x60".data

/-- `Array.prototype.join` with a separator. -/
def joinSep (sep : Str) : List Str → Str
  | [] => []
  | [x] => x
  | x :: y :: xs => x ++ sep ++ joinSep sep (y :: xs)

/-- `formatResumeForAnalysis` (`lib/resumeParser.ts` lines 168-184): build
the present sections in order and join them with blank lines; the contact
field is never consulted. -/
def formatResumeForAnalysis (parsedResume : ParsedResume) : Str :=
  let sections : List Str := []
  let sections := if parsedResume.skills.length > 0 then
    sections ++ ["Skills: ".data ++ joinSep ", ".data parsedResume.skills] else sections
  let sections := if parsedResume.experience.length > 0 then
    sections ++ ["Experience:\n".data ++ joinSep "\n".data parsedResume.experience] else sections
  let sections := if parsedResume.education.length > 0 then
    sections ++ ["Education:\n".data ++ joinSep "\n".data parsedResume.education] else sections
  joinSep "\n\n".data sections

/-- The `parsedResume` object of the analyze route's request body: each field
may be absent (`undefined`). -/
structure BodyResume where
  skills : Option (List Str)
  experience : Option (List Str)
  education : Option (List Str)
  contact : Option Str

/-- JavaScript falsiness of an optional string field. -/
def strOptFalsy : Option Str → Bool
  | none => true
  | some s => s.isEmpty

/-- JavaScript falsiness of an optional array field: a present array is
truthy even when empty. -/
def listOptFalsy : Option (List Str) → Bool
  | none => true
  | some _ => false

/-- Responses of the two API routes: an error with a status code, or a 200
payload. -/
inductive RouteResponse where
  | errMsg (status : Nat) (message : Str)
  | analysisOk (a : AnalysisResult)
  | resumeOk (r : ParsedResume)
deriving DecidableEq

def resumeRequiredMsg : Str := "Parsed resume data is required. Please parse the resume first.".data

def jdRequiredMsg : Str := "Job description is required".data

def invalidStructureMsg : Str := "Invalid parsed resume structure".data

/-- The analyze route handler (`app/api/analyze/route.ts` `POST`), from the
decoded request body on: presence checks, the structure check on the parsed
resume (where an empty contact string is falsy), formatting, then the Groq
analysis; stage errors surface as 500 with the error's message. -/
def analyzePOST : Option BodyResume → Option Str → Option Str → NetOutcome → RouteResponse
  | none, _, _, _ => .errMsg 400 resumeRequiredMsg
  | some pr, jobDescription, apiKey, net =>
    if strOptFalsy jobDescription ∨ (jsTrim (jobDescription.getD [])).isEmpty then
      .errMsg 400 jdRequiredMsg
    else if listOptFalsy pr.skills ∨ listOptFalsy pr.experience ∨
        listOptFalsy pr.education ∨ strOptFalsy pr.contact then
      .errMsg 400 invalidStructureMsg
    else
      let formatted := formatResumeForAnalysis
        ⟨pr.skills.getD [], pr.experience.getD [], pr.education.getD [], pr.contact.getD []⟩
      match analyzeResume apiKey formatted (jobDescription.getD []) net with
      | .error e => .errMsg 500 e.message
      | .ok a => .analysisOk a

def emptyExtractMsg : Str :=
  ("Could not extract text from PDF. The PDF may be image-based (scanned) or contain no " ++
   "readable text. Please ensure the PDF contains selectable text.").data

def noMeaningfulMsg : Str :=
  ("Could not extract meaningful data from resume. Please ensure the resume contains " ++
   "skills, experience, or education information.").data

/-- The parse-resume route handler (`POST` of the parse-resume route), from
the point where PDF text extraction has produced `resumeText`: the
empty-text guard, the Groq-backed structured extraction (errors surface as
500), then the rejection of structurally valid but entirely empty results
with a 400. -/
def parseResumePOST (resumeText : Str) (apiKey : Option Str) (net : NetOutcome) : RouteResponse :=
  if (jsTrim resumeText).isEmpty then .errMsg 400 emptyExtractMsg
  else
    match parseResumeFromText apiKey resumeText net with
    | .error e => .errMsg 500 e.message
    | .ok r =>
      if r.skills.length = 0 ∧ r.experience.length = 0 ∧ r.education.length = 0 then
        .errMsg 400 noMeaningfulMsg
      else .resumeOk r

/-! ### Concrete payloads used by witnesses and counterexamples -/

/-- A well-formed structured-resume payload. -/
def okResumeJson : Str :=
  '\x7b' :: "\"skills\":[\"Python\"],\"experience\":[\"Dev at X\"],\"education\":[\"BS\"],\"contact\":\"a@b\"".data ++ ['\x7d']

/-- The record `okResumeJson` decodes and validates to. -/
def okResumeParsed : ParsedResume :=
  ⟨["Python".data], ["Dev at X".data], ["BS".data], "a@b".data⟩

/-- A well-formed match-analysis payload with percentage 85. -/
def okAnalysisJson : Str :=
  '\x7b' :: "\"matchPercentage\":85,\"matchedSkills\":[\"Python\"],\"missingSkills\":[\"K8s\"],\"suggestions\":[\"Add K8s\"]".data ++ ['\x7d']

/-- A structured-resume payload with the `skills` field missing. -/
def missingSkillsJson : Str :=
  '\x7b' :: "\"experience\":[],\"education\":[],\"contact\":\"x\"".data ++ ['\x7d']

/-- The decoded fields of `missingSkillsJson`. -/
def missingSkillsFields : List (Str × Json) :=
  [("experience".data, .arr []), ("education".data, .arr []), ("contact".data, .str "x".data)]

/-- A structured-resume payload whose `contact` is present but empty. -/
def emptyContactJson : Str :=
  '\x7b' :: "\"skills\":[\"Go\"],\"experience\":[],\"education\":[],\"contact\":\"\"".data ++ ['\x7d']

/-- The decoded fields of `emptyContactJson`. -/
def emptyContactFields : List (Str × Json) :=
  [("skills".data, .arr [.str "Go".data]), ("experience".data, .arr []),
   ("education".data, .arr []), ("contact".data, .str [])]

/-- A structurally valid resume payload whose three arrays are all empty. -/
def allEmptyJson : Str :=
  '\x7b' :: "\"skills\":[],\"experience\":[],\"education\":[],\"contact\":\"x\"".data ++ ['\x7d']

/-- An analysis payload whose percentage 150 violates the schema range. -/
def badAnalysisJson : Str :=
  '\x7b' :: "\"matchPercentage\":150,\"matchedSkills\":[],\"missingSkills\":[],\"suggestions\":[]".data ++ ['\x7d']

/-- The decoded fields of `badAnalysisJson`. -/
def badAnalysisFields : List (Str × Json) :=
  [("matchPercentage".data, .num 150), ("matchedSkills".data, .arr []),
   ("missingSkills".data, .arr []), ("suggestions".data, .arr [])]

/-! ### Lemmas about trimming, fences, and the decoder's head behaviour -/

theorem dropWhile_length_le (p : Char → Bool) (l : Str) : (l.dropWhile p).length ≤ l.length := by
  induction l with
  | nil => simp
  | cons c cs ih =>
    by_cases h : p c <;> simp [List.dropWhile_cons, h] <;> omega

theorem dropWhile_eq_self_of_length {p : Char → Bool} {l : Str}
    (h : (l.dropWhile p).length = l.length) : l.dropWhile p = l := by
  cases l with
  | nil => simp
  | cons c cs =>
    by_cases hp : p c
    · exfalso
      rw [List.dropWhile_cons, if_pos hp] at h
      have := dropWhile_length_le p cs
      simp at h
      omega
    · rw [List.dropWhile_cons, if_neg hp]

theorem jsTrim_eq_self_dropWhile {s : Str} (h : jsTrim s = s) : s.dropWhile isWsChar = s := by
  have hlen : (jsTrim s).length = s.length := by rw [h]
  have h1 : (jsTrim s).length ≤ (s.dropWhile isWsChar).length := by
    unfold jsTrim
    calc (((s.dropWhile isWsChar).reverse.dropWhile isWsChar).reverse).length
        = ((s.dropWhile isWsChar).reverse.dropWhile isWsChar).length := by rw [List.length_reverse]
      _ ≤ (s.dropWhile isWsChar).reverse.length := dropWhile_length_le _ _
      _ = (s.dropWhile isWsChar).length := by rw [List.length_reverse]
  have h2 := dropWhile_length_le isWsChar s
  exact dropWhile_eq_self_of_length (by omega)

theorem head_not_ws_of_trim {c : Char} {cs : Str} (h : jsTrim (c :: cs) = c :: cs) :
    isWsChar c = false := by
  have hd := jsTrim_eq_self_dropWhile h
  by_cases hp : isWsChar c
  · exfalso
    rw [List.dropWhile_cons, if_pos hp] at hd
    have hle := dropWhile_length_le isWsChar cs
    rw [hd] at hle
    simp at hle
  · exact (Bool.not_eq_true _).mp hp

theorem wrapJson_cons (t : Str) :
    wrapJson t = btick :: btick :: btick :: 'j' :: 's' :: 'o' :: 'n' :: '\n' ::
      (t ++ "\n\x60\x60\x60".data) := rfl

theorem jsTrim_wrapJson (t : Str) : jsTrim (wrapJson t) = wrapJson t := by
  have hb : isWsChar btick = false := rfl
  have h1 : (wrapJson t).dropWhile isWsChar = wrapJson t := by
    rw [wrapJson_cons, List.dropWhile_cons, if_neg (by rw [hb]; simp)]
  have hrev : (wrapJson t).reverse =
      btick :: btick :: btick :: '\n' :: (t.reverse ++ "\x60\x60\x60json\n".data.reverse) := by
    unfold wrapJson
    rw [List.reverse_append, List.reverse_append]
    rfl
  have h2 : (wrapJson t).reverse.dropWhile isWsChar = (wrapJson t).reverse := by
    rw [hrev, List.dropWhile_cons, if_neg (by rw [hb]; simp)]
  unfold jsTrim
  rw [h1, h2, List.reverse_reverse]

theorem stripEndFence_append (t : Str) : stripEndFence (t ++ "\n\x60\x60\x60".data) = t := by
  have hrev : (t ++ "\n\x60\x60\x60".data).reverse = btick :: btick :: btick :: '\n' :: t.reverse := by
    rw [List.reverse_append]; rfl
  unfold stripEndFence
  rw [hrev]
  simp

theorem stripFences_wrapJson (t : Str) : stripFences (wrapJson t) = t := by
  unfold stripFences
  rw [jsTrim_wrapJson]
  have hpre : "\x60\x60\x60json".data.isPrefixOf (wrapJson t) = true := rfl
  rw [if_pos (by rw [hpre])]
  have hstart : stripStartFence "\x60\x60\x60json".data (wrapJson t) = t ++ "\n\x60\x60\x60".data := rfl
  rw [hstart, stripEndFence_append]

theorem jsonParse_nil : jsonParse [] = none := rfl

theorem jsonParse_btick (cs : Str) : jsonParse (btick :: cs) = none := rfl

theorem jsonParse_wrapJson (t : Str) : jsonParse (wrapJson t) = none := by
  rw [wrapJson_cons]; exact jsonParse_btick _

theorem fence3_prefix_false {c : Char} (h : c ≠ btick) (cs : Str) :
    "\x60\x60\x60".data.isPrefixOf (c :: cs) = false := by
  have he : "\x60\x60\x60".data = btick :: "\x60\x60".data := rfl
  rw [he]
  simp [List.isPrefixOf]
  intro hc
  exact absurd hc.symm h

theorem fence7_prefix_false {c : Char} (h : c ≠ btick) (cs : Str) :
    "\x60\x60\x60json".data.isPrefixOf (c :: cs) = false := by
  have he : "\x60\x60\x60json".data = btick :: "\x60\x60json".data := rfl
  rw [he]
  simp [List.isPrefixOf]
  intro hc
  exact absurd hc.symm h

theorem stripFences_eq_self {t : Str} (hparse : (jsonParse t).isSome)
    (htrim : jsTrim t = t) : stripFences t = t := by
  cases t with
  | nil => simp [jsonParse_nil] at hparse
  | cons c cs =>
    have hc : c ≠ btick := by
      intro hcb
      rw [hcb, jsonParse_btick] at hparse
      simp at hparse
    unfold stripFences
    rw [htrim, fence7_prefix_false hc, fence3_prefix_false hc]
    simp [htrim]

/-! ### Validator and stage lemmas -/

theorem keyFalsy_false {k : Str} (h : k ≠ []) : keyFalsy (some k) = false := by
  cases k with
  | nil => exact absurd rfl h
  | cons a l => rfl


theorem validateParsedResumeFields_missing {fs : List (Str × Json)}
    (h : jlookup fs "skills".data = none ∨ jlookup fs "experience".data = none ∨
         jlookup fs "education".data = none ∨ jlookup fs "contact".data = none) :
    validateParsedResumeFields fs = .error zodMissingMsg := by
  unfold validateParsedResumeFields
  rcases h with h | h | h | h
  · rw [h]
  · cases h1 : jlookup fs "skills".data with
    | none => rfl
    | some js => rw [h]
  · cases h1 : jlookup fs "skills".data with
    | none => rfl
    | some js =>
      cases h2 : jlookup fs "experience".data with
      | none => rfl
      | some je => rw [h]
  · cases h1 : jlookup fs "skills".data with
    | none => rfl
    | some js =>
      cases h2 : jlookup fs "experience".data with
      | none => rfl
      | some je =>
        cases h3 : jlookup fs "education".data with
        | none => rfl
        | some jed => rw [h]

theorem validateAnalysisPresent_num (x : Rat) (j1 j2 j3 : Json) :
    validateAnalysisPresent (.num x) j1 j2 j3 =
      (if x < 0 then .error zodTooSmallMsg
       else if 100 < x then .error zodTooBigMsg
       else
         match asStringArray j1, asStringArray j2, asStringArray j3 with
         | some a, some b, some c => .ok ⟨x, a, b, c⟩
         | _, _, _ => .error zodWrongTypeMsg) := rfl

theorem validateAnalysisFields_eq_present {fs : List (Str × Json)} {jm j1 j2 j3 : Json}
    (hm : jlookup fs "matchPercentage".data = some jm)
    (h1 : jlookup fs "matchedSkills".data = some j1)
    (h2 : jlookup fs "missingSkills".data = some j2)
    (h3 : jlookup fs "suggestions".data = some j3) :
    validateAnalysisFields fs = validateAnalysisPresent jm j1 j2 j3 := by
  unfold validateAnalysisFields
  rw [hm, h1, h2, h3]

theorem validateAnalysisFields_out_of_range {fs : List (Str × Json)} {x : Rat}
    (hm : jlookup fs "matchPercentage".data = some (.num x)) (hx : x < 0 ∨ 100 < x) :
    ∃ m, validateAnalysisFields fs = .error m := by
  cases h1 : jlookup fs "matchedSkills".data with
  | none => exact ⟨zodMissingMsg, by unfold validateAnalysisFields; rw [hm, h1]⟩
  | some j1 =>
    cases h2 : jlookup fs "missingSkills".data with
    | none => exact ⟨zodMissingMsg, by unfold validateAnalysisFields; rw [hm, h1, h2]⟩
    | some j2 =>
      cases h3 : jlookup fs "suggestions".data with
      | none => exact ⟨zodMissingMsg, by unfold validateAnalysisFields; rw [hm, h1, h2, h3]⟩
      | some j3 =>
        have hred := validateAnalysisFields_eq_present hm h1 h2 h3
        rcases hx with hx | hx
        · exact ⟨zodTooSmallMsg, by rw [hred, validateAnalysisPresent_num, if_pos hx]⟩
        · refine ⟨zodTooBigMsg, ?_⟩
          rw [hred, validateAnalysisPresent_num,
            if_neg (by intro hlt; exact absurd (lt_trans hx hlt) (by norm_num)), if_pos hx]

theorem validateAnalysisFields_not_number {fs : List (Str × Json)} {jv : Json}
    (hm : jlookup fs "matchPercentage".data = some jv) (hv : ∀ x : Rat, jv ≠ .num x) :
    ∃ m, validateAnalysisFields fs = .error m := by
  cases h1 : jlookup fs "matchedSkills".data with
  | none => exact ⟨zodMissingMsg, by unfold validateAnalysisFields; rw [hm, h1]⟩
  | some j1 =>
    cases h2 : jlookup fs "missingSkills".data with
    | none => exact ⟨zodMissingMsg, by unfold validateAnalysisFields; rw [hm, h1, h2]⟩
    | some j2 =>
      cases h3 : jlookup fs "suggestions".data with
      | none => exact ⟨zodMissingMsg, by unfold validateAnalysisFields; rw [hm, h1, h2, h3]⟩
      | some j3 =>
        have hred := validateAnalysisFields_eq_present hm h1 h2 h3
        refine ⟨zodNotNumberMsg, ?_⟩
        rw [hred]
        cases jv with
        | num x => exact absurd rfl (hv x)
        | null => rfl
        | bool b => rfl
        | str s => rfl
        | arr xs => rfl
        | obj ofs => rfl

theorem validateAnalysisPresent_ok_inv {jm j1 j2 j3 : Json} {r : AnalysisResult}
    (h : validateAnalysisPresent jm j1 j2 j3 = .ok r) :
    jm = .num r.matchPercentage ∧ 0 ≤ r.matchPercentage ∧ r.matchPercentage ≤ 100 := by
  cases jm with
  | num x =>
    rw [validateAnalysisPresent_num] at h
    by_cases hx1 : x < 0
    · rw [if_pos hx1] at h; exact Except.noConfusion h
    · rw [if_neg hx1] at h
      by_cases hx2 : (100 : Rat) < x
      · rw [if_pos hx2] at h; exact Except.noConfusion h
      · rw [if_neg hx2] at h
        cases ha : asStringArray j1 with
        | none => rw [ha] at h; exact Except.noConfusion h
        | some a =>
          cases hb : asStringArray j2 with
          | none => rw [ha, hb] at h; exact Except.noConfusion h
          | some b =>
            cases hc : asStringArray j3 with
            | none => rw [ha, hb, hc] at h; exact Except.noConfusion h
            | some c =>
              rw [ha, hb, hc] at h
              injection h with h'
              subst h'
              exact ⟨rfl, not_lt.mp hx1, not_lt.mp hx2⟩
  | null => exact Except.noConfusion h
  | bool b => exact Except.noConfusion h
  | str s => exact Except.noConfusion h
  | arr xs => exact Except.noConfusion h
  | obj ofs => exact Except.noConfusion h

theorem validateAnalysisFields_ok_inv {fs : List (Str × Json)} {r : AnalysisResult}
    (h : validateAnalysisFields fs = .ok r) :
    jlookup fs "matchPercentage".data = some (.num r.matchPercentage) ∧
      0 ≤ r.matchPercentage ∧ r.matchPercentage ≤ 100 := by
  unfold validateAnalysisFields at h
  revert h
  cases hm : jlookup fs "matchPercentage".data with
  | none => intro h; exact Except.noConfusion h
  | some jm =>
    cases h1 : jlookup fs "matchedSkills".data with
    | none => intro h; exact Except.noConfusion h
    | some j1 =>
      cases h2 : jlookup fs "missingSkills".data with
      | none => intro h; exact Except.noConfusion h
      | some j2 =>
        cases h3 : jlookup fs "suggestions".data with
        | none => intro h; exact Except.noConfusion h
        | some j3 =>
          intro h
          obtain ⟨hjm, hge, hle⟩ := validateAnalysisPresent_ok_inv h
          exact ⟨by rw [hjm], hge, hle⟩

theorem parseResumeFromText_decoded {k text c : Str} {j : Json} (hk : k ≠ [])
    (hc : jsonParse c = some j) :
    parseResumeFromText (some k) text (.content (some c)) =
      (match validateParsedResume j with
       | .error zm => .error (parseResumeCatch (.zod zm))
       | .ok v => .ok (defaultFill v)) := by
  unfold parseResumeFromText
  rw [keyFalsy_false hk, if_neg (by simp)]
  simp only [hc]

theorem analyzeResume_decoded {k rt jd c : Str} {j : Json} (hk : k ≠ [])
    (hc : jsonParse c = some j) :
    analyzeResume (some k) rt jd (.content (some c)) =
      (match validateAnalysisResult j with
       | .error zm => .error (groqAnalyzeCatch (.zod zm))
       | .ok r => .ok r) := by
  unfold analyzeResume
  rw [keyFalsy_false hk, if_neg (by simp)]
  simp only [hc]

/-! ### Claim theorems -/

/-- Claim C1 (amended): a provider response that decodes as JSON but is
missing any of the four StructuredResume fields does not get its defaults
filled in; `parseResumeFromText` fails with a schema-violation error.  The
post-validation defaulting runs only after the schema check has passed. -/
theorem parse_missing_field_is_schema_violation (k text c : Str) (fs : List (Str × Json))
    (hk : k ≠ []) (hc : jsonParse c = some (.obj fs))
    (hmiss : jlookup fs "skills".data = none ∨ jlookup fs "experience".data = none ∨
             jlookup fs "education".data = none ∨ jlookup fs "contact".data = none) :
    parseResumeFromText (some k) text (.content (some c)) =
      .error ⟨.schema, none, parserZodPrefix ++ zodMissingMsg⟩ := by
  rw [parseResumeFromText_decoded hk hc,
    show validateParsedResume (.obj fs) = validateParsedResumeFields fs from rfl,
    validateParsedResumeFields_missing hmiss]
  rfl

/-- Claim C1, counterexample to the claim as stated: a decoded response
missing the `skills` field makes `parseResumeFromText` raise a schema error
instead of returning successfully with the default filled in. -/
theorem parse_missing_field_counterexample :
    parseResumeFromText (some "k".data) "resume text".data (.content (some missingSkillsJson)) =
      .error ⟨.schema, none, parserZodPrefix ++ zodMissingMsg⟩ := rfl

/-- Claim C1, witness: the amended theorem applied to the concrete payload
missing its `skills` field. -/
theorem parse_missing_field_witness :
    parseResumeFromText (some "k".data) "resume text".data (.content (some missingSkillsJson)) =
      .error ⟨.schema, none, parserZodPrefix ++ zodMissingMsg⟩ :=
  parse_missing_field_is_schema_violation "k".data "resume text".data missingSkillsJson
    missingSkillsFields (by decide) rfl (Or.inl rfl)

/-- Claim C2: for every decoded analysis response, a `matchPercentage` that
is non-numeric or outside `[0, 100]` makes `analyzeResume` fail with a
schema-violation error — never a clamped value — and on a passing check the
validated record is returned unmodified, its percentage the decoded number
and within range. -/
theorem analyze_matchPercentage_schema_enforced (k rt jd c : Str) (fs : List (Str × Json))
    (hk : k ≠ []) (hc : jsonParse c = some (.obj fs)) :
    (∀ x : Rat, jlookup fs "matchPercentage".data = some (.num x) → x < 0 ∨ 100 < x →
       ∃ m, analyzeResume (some k) rt jd (.content (some c)) =
         .error ⟨.schema, none, analyzeZodPrefix ++ m⟩) ∧
    (∀ jv : Json, jlookup fs "matchPercentage".data = some jv → (∀ x : Rat, jv ≠ .num x) →
       ∃ m, analyzeResume (some k) rt jd (.content (some c)) =
         .error ⟨.schema, none, analyzeZodPrefix ++ m⟩) ∧
    (∀ r : AnalysisResult, validateAnalysisResult (.obj fs) = .ok r →
       analyzeResume (some k) rt jd (.content (some c)) = .ok r ∧
       jlookup fs "matchPercentage".data = some (.num r.matchPercentage) ∧
       0 ≤ r.matchPercentage ∧ r.matchPercentage ≤ 100) := by
  refine ⟨?_, ?_, ?_⟩
  · intro x hm hx
    obtain ⟨m, hv⟩ := validateAnalysisFields_out_of_range hm hx
    refine ⟨m, ?_⟩
    rw [analyzeResume_decoded hk hc,
      show validateAnalysisResult (.obj fs) = validateAnalysisFields fs from rfl, hv]
    rfl
  · intro jv hm hv
    obtain ⟨m, hverr⟩ := validateAnalysisFields_not_number hm hv
    refine ⟨m, ?_⟩
    rw [analyzeResume_decoded hk hc,
      show validateAnalysisResult (.obj fs) = validateAnalysisFields fs from rfl, hverr]
    rfl
  · intro r hok
    refine ⟨?_, validateAnalysisFields_ok_inv hok⟩
    rw [analyzeResume_decoded hk hc, hok]

/-- Claim C2, witness: the theorem applied to a payload whose percentage is
150. -/
theorem analyze_matchPercentage_witness :
    ∃ m, analyzeResume (some "k".data) [] [] (.content (some badAnalysisJson)) =
      .error ⟨.schema, none, analyzeZodPrefix ++ m⟩ :=
  (analyze_matchPercentage_schema_enforced "k".data [] [] badAnalysisJson badAnalysisFields
      (by decide) rfl).1 150 rfl (Or.inr (by norm_num))

/-- Claim C3 (amended): only the Gemini analysis variant strips code fences
before decoding; the Structured Extraction Stage decodes the raw payload
directly, so a fence-wrapped JSON response fails there with the
malformed-response error, while the Gemini decode of the wrapped payload
equals the decode of the bare payload. -/
theorem fence_stripping_only_in_gemini_variant (t k text : Str) (hk : k ≠ []) :
    geminiDecode (wrapJson t) = jsonParse t ∧
    parseResumeFromText (some k) text (.content (some (wrapJson t))) =
      .error ⟨.malformed, none, jsonParseFailMsg⟩ := by
  constructor
  · unfold geminiDecode
    rw [stripFences_wrapJson]
  · unfold parseResumeFromText
    rw [keyFalsy_false hk, if_neg (by simp)]
    simp only [jsonParse_wrapJson]
    rfl

/-- Claim C3, counterexample to the claim as stated: a valid resume payload
wrapped in a ```` ```json ```` fence is a decode failure for
`parseResumeFromText` — the extraction stage performs no fence-stripping. -/
theorem extraction_fenced_payload_counterexample :
    (jsonParse okResumeJson).isSome = true ∧
    parseResumeFromText (some "k".data) "text".data (.content (some (wrapJson okResumeJson))) =
      .error ⟨.malformed, none, jsonParseFailMsg⟩ := ⟨rfl, rfl⟩

/-- Claim C3, witness: the amended theorem applied at a concrete payload. -/
theorem fence_stripping_only_in_gemini_witness :
    geminiDecode (wrapJson okResumeJson) = jsonParse okResumeJson ∧
    parseResumeFromText (some "k".data) "text".data (.content (some (wrapJson okResumeJson))) =
      .error ⟨.malformed, none, jsonParseFailMsg⟩ :=
  fence_stripping_only_in_gemini_variant okResumeJson "k".data "text".data (by decide)

/-- Claim C4 (amended): neither stage function checks its input text for
emptiness — each stage's outcome is independent of the input texts — and the
empty-input rejections live in the HTTP routes: the analyze route rejects an
empty-after-trim job description and the parse route rejects empty extracted
text, each with a 400 before the stage (and hence the provider) is
invoked. -/
theorem empty_input_checked_at_routes_not_stages :
    (∀ (k t t' : Str) (net : NetOutcome),
       parseResumeFromText (some k) t net = parseResumeFromText (some k) t' net) ∧
    (∀ (k rt rt' jd jd' : Str) (net : NetOutcome),
       analyzeResume (some k) rt jd net = analyzeResume (some k) rt' jd' net) ∧
    (∀ (pr : BodyResume) (jd : Str) (key : Option Str) (net : NetOutcome),
       jsTrim jd = [] → analyzePOST (some pr) (some jd) key net = .errMsg 400 jdRequiredMsg) ∧
    (∀ (t : Str) (key : Option Str) (net : NetOutcome),
       jsTrim t = [] → parseResumePOST t key net = .errMsg 400 emptyExtractMsg) := by
  refine ⟨fun _ _ _ _ => rfl, fun _ _ _ _ _ _ => rfl, ?_, ?_⟩
  · intro pr jd key net h
    simp only [analyzePOST]
    rw [if_pos (Or.inr (by simp [h]))]
  · intro t key net h
    unfold parseResumePOST
    rw [if_pos (by simp [h])]

/-- Claim C4, counterexample to the claim as stated: with a configured key
and an empty (already-trimmed-empty) input, each stage proceeds to consume
the provider response and returns its result — no `InvalidInput` failure
happens before the network call. -/
theorem stage_accepts_empty_input_counterexample :
    parseResumeFromText (some "k".data) [] (.content (some okResumeJson)) = .ok okResumeParsed ∧
    analyzeResume (some "k".data) [] [] (.content (some okAnalysisJson)) =
      .ok ⟨85, ["Python".data], ["K8s".data], ["Add K8s".data]⟩ := ⟨rfl, rfl⟩

/-- Claim C4, witness: the amended theorem's route conjuncts applied at
concrete empty inputs. -/
theorem empty_input_checked_at_routes_witness :
    analyzePOST (some ⟨some [], some [], some [], some "c".data⟩) (some "  ".data)
      (some "k".data) (.content none) = .errMsg 400 jdRequiredMsg ∧
    parseResumePOST [] (some "k".data) (.content none) = .errMsg 400 emptyExtractMsg :=
  ⟨empty_input_checked_at_routes_not_stages.2.2.1 ⟨some [], some [], some [], some "c".data⟩
      "  ".data (some "k".data) (.content none) (by decide),
   empty_input_checked_at_routes_not_stages.2.2.2 [] (some "k".data) (.content none) (by decide)⟩

/-- Claim C5 (amended): in the Groq and OpenAI variants, provider-error
classification yields exactly RateLimited (Groq: message text mentioning
429/quota/rate limit/too many requests; OpenAI: status 429) with a fixed
remediation message, AuthenticationError (Groq: message text; OpenAI: status
401), or UpstreamError preserving the original status and message; no
ModelUnavailable classification exists in these two variants.  The OpenAI
variant inspects the structured status, the Groq variant only message
text. -/
theorem classify_failure_groq_openai_taxonomy (st : Option Nat) (m : Str) :
    (groqRatePattern m = true →
       groqAnalyzeCatch (.js .upstream st true m) = ⟨.rateLimited, none, groqRateMsgA⟩) ∧
    (groqRatePattern m = false → groqAuthPattern m = true →
       groqAnalyzeCatch (.js .upstream st true m) = ⟨.authentication, none, groqAuthMsg⟩) ∧
    (groqRatePattern m = false → groqAuthPattern m = false →
       groqAnalyzeCatch (.js .upstream st true m) = ⟨.upstream, st, m⟩) ∧
    (∀ (st' : Option Nat) (isE : Bool) (m' : Str),
       (groqAnalyzeCatch (.js .upstream st' isE m')).kind ≠ .modelUnavailable) ∧
    ((openaiAnalyzeCatch (.js .upstream (some 429) true m)).kind = .rateLimited) ∧
    (openaiAnalyzeCatch (.js .upstream (some 401) true m) = ⟨.authentication, none, openaiAuthMsg⟩) ∧
    (∀ s : Nat, s ≠ 429 → s ≠ 401 →
       openaiAnalyzeCatch (.js .upstream (some s) true m) =
         ⟨.upstream, some s, "OpenAI API error (".data ++ natToStr s ++ "): ".data ++
           (if m.isEmpty then "Unknown error".data else m)⟩) ∧
    (∀ (st' : Option Nat) (isE : Bool) (m' : Str),
       (openaiAnalyzeCatch (.js .upstream st' isE m')).kind ≠ .modelUnavailable) := by
  refine ⟨?_, ?_, ?_, ?_, ?_, ?_, ?_, ?_⟩
  · intro h
    simp [groqAnalyzeCatch, h]
  · intro h1 h2
    simp [groqAnalyzeCatch, h1, h2]
  · intro h1 h2
    simp [groqAnalyzeCatch, h1, h2]
  · intro st' isE m'
    by_cases h1 : groqRatePattern m' <;> by_cases h2 : groqAuthPattern m' <;>
      cases isE <;> simp [groqAnalyzeCatch, h1, h2]
  · by_cases hq : openaiQuotaTextPattern m <;> simp [openaiAnalyzeCatch, hq]
  · simp [openaiAnalyzeCatch]
  · intro s h1 h2
    simp [openaiAnalyzeCatch, h1, h2]
  · intro st' isE m'
    cases st' with
    | some s =>
      by_cases h1 : s = 429
      · by_cases hq : openaiQuotaTextPattern m' <;> simp [openaiAnalyzeCatch, h1, hq]
      · by_cases h2 : s = 401 <;> simp [openaiAnalyzeCatch, h1, h2]
    | none =>
      by_cases h1 : openaiFallbackQuotaPattern m' <;>
        by_cases h2 : strIncludes (jsLower m') "rate limit".data <;>
          cases isE <;> simp [openaiAnalyzeCatch, h1, h2]

/-- Claim C5, counterexample to the claim as stated: a Groq rate-limit error
is replaced by a canned remediation message; the original provider message
(here containing the marker `xyz-70b`) is not preserved in the detail. -/
theorem rate_limit_detail_not_preserved_counterexample :
    groqAnalyzeCatch (.js .upstream (some 429) true "rate limit reached for model xyz-70b".data) =
      ⟨.rateLimited, none, groqRateMsgA⟩ ∧
    strIncludes groqRateMsgA "xyz-70b".data = false := by
  constructor
  · simp [groqAnalyzeCatch, show groqRatePattern "rate limit reached for model xyz-70b".data = true from by decide]
  · decide

/-- Claim C5, witness: the amended theorem's first conjunct at a concrete
rate-limit message. -/
theorem classify_failure_witness :
    groqAnalyzeCatch (.js .upstream none true "429".data) = ⟨.rateLimited, none, groqRateMsgA⟩ :=
  (classify_failure_groq_openai_taxonomy none "429".data).1 (by decide)

/-- Claim C6: `formatResumeForAnalysis` is a pure total function that never
reads the contact field, returns the empty string on the all-empty record,
and otherwise emits the Skills, Experience and Education sections in fixed
order — each omitted when its list is empty — joined by blank lines. -/
theorem formatResumeForAnalysis_spec :
    ∀ (s e ed : List Str) (c c' : Str),
      formatResumeForAnalysis ⟨s, e, ed, c⟩ = formatResumeForAnalysis ⟨s, e, ed, c'⟩ ∧
      formatResumeForAnalysis ⟨[], [], [], c⟩ = [] ∧
      formatResumeForAnalysis ⟨s, e, ed, c⟩ =
        joinSep "\n\n".data
          ((if s = [] then [] else ["Skills: ".data ++ joinSep ", ".data s]) ++
           (if e = [] then [] else ["Experience:\n".data ++ joinSep "\n".data e]) ++
           (if ed = [] then [] else ["Education:\n".data ++ joinSep "\n".data ed])) := by
  intro s e ed c c'
  refine ⟨rfl, rfl, ?_⟩
  unfold formatResumeForAnalysis
  cases s <;> cases e <;> cases ed <;> simp

/-- Claim C7: fence-stripping is idempotent with respect to decoding — for a
JSON payload (in trimmed form), the ```` ```json ````-wrapped payload and
the bare payload both pass fence-stripping followed by decoding, and decode
to the same value. -/
theorem fence_stripping_decode_idempotent (t : Str) (v : Json)
    (hparse : jsonParse t = some v) (htrim : jsTrim t = t) :
    jsonParse (stripFences (wrapJson t)) = some v ∧ jsonParse (stripFences t) = some v := by
  constructor
  · rw [stripFences_wrapJson]
    exact hparse
  · rw [stripFences_eq_self (by rw [hparse]; rfl) htrim]
    exact hparse

/-- Claim C7, witness: the theorem applied to a concrete payload, the
decoded value being produced by evaluation. -/
theorem fence_stripping_decode_witness :
    ∃ v, jsonParse okResumeJson = some v ∧
      jsonParse (stripFences (wrapJson okResumeJson)) = some v ∧
      jsonParse (stripFences okResumeJson) = some v :=
  ⟨_, rfl, (fence_stripping_decode_idempotent okResumeJson _ rfl rfl).1,
    (fence_stripping_decode_idempotent okResumeJson _ rfl rfl).2⟩

/-- Claim C8: with the provider credential absent from the environment, both
stage functions fail with the configuration error — a structured error, not
a crash — and the result is the same for every provider outcome, i.e. no
request's response is ever consulted. -/
theorem missing_credential_configuration_error :
    ∀ (text rt jd : Str) (net net' : NetOutcome),
      parseResumeFromText none text net = .error ⟨.configuration, none, groqKeyMissingMsg⟩ ∧
      analyzeResume none rt jd net' = .error ⟨.configuration, none, groqKeyMissingMsg⟩ :=
  fun _ _ _ _ _ => ⟨rfl, rfl⟩

/-- Claim C9: a decoded response whose `contact` field is present but empty
passes the schema check, and `parseResumeFromText` then replaces the empty
string by the sentinel `"Not provided"` in the returned record. -/
theorem empty_contact_defaulted_to_sentinel (k text c : Str) (j : Json) (v : ParsedResume)
    (hk : k ≠ []) (hc : jsonParse c = some j) (hval : validateParsedResume j = .ok v)
    (hempty : v.contact = []) :
    parseResumeFromText (some k) text (.content (some c)) =
      .ok { v with contact := "Not provided".data } := by
  rw [parseResumeFromText_decoded hk hc, hval]
  simp [defaultFill, jsOrStr, hempty]

/-- Claim C9, witness: the theorem applied to a payload with an empty
contact string. -/
theorem empty_contact_defaulted_witness :
    parseResumeFromText (some "k".data) "t".data (.content (some emptyContactJson)) =
      .ok ⟨["Go".data], [], [], "Not provided".data⟩ :=
  empty_contact_defaulted_to_sentinel "k".data "t".data emptyContactJson
    (.obj emptyContactFields) ⟨["Go".data], [], [], []⟩ (by decide) rfl rfl rfl

/-- Claim C10: when a structurally valid parsed resume has all three arrays
empty, the parse-resume route rejects the request with a 400 whose message
begins with "Could not extract meaningful data from resume", instead of
returning the record. -/
theorem all_empty_resume_rejected_400 (text : Str) (key : Option Str) (net : NetOutcome)
    (r : ParsedResume) (hne : (jsTrim text).isEmpty = false)
    (hok : parseResumeFromText key text net = .ok r)
    (hs : r.skills = []) (he : r.experience = []) (hed : r.education = []) :
    parseResumePOST text key net = .errMsg 400 noMeaningfulMsg ∧
      "Could not extract meaningful data from resume".data.isPrefixOf noMeaningfulMsg = true := by
  constructor
  · unfold parseResumePOST
    rw [hne, if_neg (by simp)]
    simp only [hok]
    rw [if_pos ⟨by simp [hs], by simp [he], by simp [hed]⟩]
  · decide

/-- Claim C10, witness: the theorem applied to a run whose provider response
is structurally valid but entirely empty. -/
theorem all_empty_resume_rejected_witness :
    parseResumePOST "r".data (some "k".data) (.content (some allEmptyJson)) =
      .errMsg 400 noMeaningfulMsg ∧
      "Could not extract meaningful data from resume".data.isPrefixOf noMeaningfulMsg = true :=
  all_empty_resume_rejected_400 "r".data (some "k".data) (.content (some allEmptyJson))
    ⟨[], [], [], "x".data⟩ rfl rfl rfl rfl rfl
